import Mathlib

/-
  Shallow embedding of the acserver-exporter state-aggregation engine
  (monitor.go, types.go, http_client.go, prometheus.go).

  Datagram payloads are lists of byte values (Nat, reduced mod 256 at each
  uint8 read, matching the Go uint8 width).  Decoded text fields are byte
  lists as well.  The concurrent locks of the source guard single in-memory
  updates, so each handler is embedded as a pure state transformer; frames
  are processed strictly in arrival order, exactly as the decode loop does.
-/

namespace ACServer

/-- A raw byte sequence: the payload of one UDP datagram. -/
abbrev Bytes := List Nat

/-- strings.TrimRight(s, "\x00"): remove every trailing zero byte. -/
def trimTrailingZeros (l : Bytes) : Bytes :=
  (l.reverse.dropWhile (fun b => b == 0)).reverse

/-- binary.Read of one uint8 from a bytes.Reader: consume one byte; on EOF the
Go variable keeps its zero value and the reader stays empty. -/
def readU8 (l : Bytes) : Nat × Bytes :=
  match l with
  | [] => (0, [])
  | b :: rest => (b % 256, rest)

/-- binary.Read of a little-endian uint16: io.ReadFull consumes up to two
bytes; on a short read the destination keeps its zero value. -/
def readU16 (l : Bytes) : Nat × Bytes :=
  if 2 ≤ l.length then
    (l.getD 0 0 % 256 + 256 * (l.getD 1 0 % 256), l.drop 2)
  else (0, l.drop 2)

/-- binary.Read of a little-endian uint32: io.ReadFull consumes up to four
bytes; on a short read the destination keeps its zero value. -/
def readU32 (l : Bytes) : Nat × Bytes :=
  if 4 ≤ l.length then
    (l.getD 0 0 % 256 + 256 * (l.getD 1 0 % 256)
      + 256 * 256 * (l.getD 2 0 % 256) + 256 * 256 * 256 * (l.getD 3 0 % 256),
     l.drop 4)
  else (0, l.drop 4)

/-- readString from monitor.go: read one length byte; on EOF or a zero length
return the empty string.  Otherwise allocate a zero-filled buffer of that
length and issue a single bytes.Reader.Read into it: if the reader is empty
that read returns io.EOF and the empty string is returned; otherwise it copies
min(length, remaining) bytes without error, and the result is the buffer with
trailing zero bytes stripped.  Returns the decoded bytes and the rest of the
reader. -/
def readString (l : Bytes) : Bytes × Bytes :=
  match l with
  | [] => ([], [])
  | len0 :: rest =>
    let length := len0 % 256
    if length = 0 then ([], rest)
    else if rest.isEmpty then ([], rest)
    else (trimTrailingZeros (rest.take length), rest.drop length)

/-- CarInfo from types.go: one participant slot record. -/
structure CarInfo where
  carID : Nat
  isConnected : Bool
  carModel : Bytes
  carSkin : Bytes
  driverName : Bytes
  driverGUID : Bytes
deriving DecidableEq, Repr

/-- The Go zero value CarInfo obtained from the literal in handleNewConnection. -/
def CarInfo.empty : CarInfo := ⟨0, false, [], [], [], []⟩

/-- ServerInfo from types.go: the parsed JSON snapshot of the HTTP INFO
endpoint. -/
structure ServerInfo where
  cars : List String
  clients : Int
  track : String
  name : String
  maxClients : Int
  port : Int
  pickupMode : Bool
  session : Int
  sessionTypes : List Int
  country : List String
  pass : Bool
  timestamp : Int
  timeLeft : Int
  timeOfDay : Int
  poweredBy : String
deriving DecidableEq, Repr

/-- The ServerInfo produced by json.Unmarshal on a body that mentions no
field, such as the body consisting of the two braces alone: every field keeps
its Go zero value. -/
def ServerInfo.zero : ServerInfo :=
  ⟨[], 0, "", "", 0, 0, false, 0, [], [], false, 0, 0, 0, ""⟩

/-- The mutable fields of ACServerMonitor from monitor.go: the slot map, the
snapshot record, the session context strings and the four lifetime counters.
The counters are int64 in the source and only ever incremented by one, so they
are embedded as Nat. -/
structure MonitorState where
  cars : Nat → Option CarInfo
  serverInfo : Option ServerInfo
  serverName : Bytes
  trackName : Bytes
  sessionType : String
  totalLaps : Nat
  totalCollisions : Nat
  totalConnections : Nat
  totalDisconnections : Nat

/-- The state of a freshly constructed ACServerMonitor: empty slot map, nil
snapshot, zero counters, empty context strings. -/
def initState : MonitorState :=
  { cars := fun _ => none
    serverInfo := none
    serverName := []
    trackName := []
    sessionType := ""
    totalLaps := 0
    totalCollisions := 0
    totalConnections := 0
    totalDisconnections := 0 }

/-- Write one key of the slot map. -/
def setCar (cars : Nat → Option CarInfo) (k : Nat) (v : Option CarInfo) :
    Nat → Option CarInfo :=
  fun i => if i = k then v else cars i

-- Message type tags from types.go.
def ACSP_ERROR : Nat := 0
def ACSP_CHAT : Nat := 1
def ACSP_NEW_SESSION : Nat := 3
def ACSP_NEW_CONNECTION : Nat := 4
def ACSP_CONNECTION_CLOSED : Nat := 5
def ACSP_CAR_INFO : Nat := 7
def ACSP_LAP_COMPLETED : Nat := 9
def ACSP_SESSION_INFO : Nat := 11
def ACSP_CLIENT_EVENT : Nat := 12

/-- handleNewSession: below four payload bytes the frame is dropped; otherwise
read four uint8 values, then server name, track and track config strings, and
overwrite the context with the name and the composed track string
"track (config)". -/
def handleNewSession (s : MonitorState) (data : Bytes) : MonitorState :=
  if data.length < 4 then s
  else
    let (_version, r1) := readU8 data
    let (_sessionIndex, r2) := readU8 r1
    let (_currentSessionIndex, r3) := readU8 r2
    let (_sessionCount, r4) := readU8 r3
    let (serverName, r5) := readString r4
    let (track, r6) := readString r5
    let (trackConfig, _) := readString r6
    { s with serverName := serverName
             trackName := track ++ [32, 40] ++ trackConfig ++ [41] }

/-- handleNewConnection: below one payload byte the frame is dropped;
otherwise read driver name and GUID strings then slot id, model id and skin id
bytes, create the slot record if absent, overwrite its id, connected flag,
name and GUID (the model and skin bytes are decoded but never stored), and
increment the connections counter. -/
def handleNewConnection (s : MonitorState) (data : Bytes) : MonitorState :=
  if data.length < 1 then s
  else
    let (driverName, r1) := readString data
    let (driverGUID, r2) := readString r1
    let (carID, r3) := readU8 r2
    let (_carModel, r4) := readU8 r3
    let (_carSkin, _) := readU8 r4
    let prev := (s.cars carID).getD CarInfo.empty
    { s with
      cars := setCar s.cars carID (some { prev with
        carID := carID
        isConnected := true
        driverName := driverName
        driverGUID := driverGUID })
      totalConnections := s.totalConnections + 1 }

/-- handleConnectionClosed: below one payload byte the frame is dropped;
otherwise read the driver name string then the slot id byte, clear the
connected flag when the slot record exists (the map is not written when it
does not), and increment the disconnections counter. -/
def handleConnectionClosed (s : MonitorState) (data : Bytes) : MonitorState :=
  if data.length < 1 then s
  else
    let (_driverName, r1) := readString data
    let (carID, _) := readU8 r1
    let cars' :=
      match s.cars carID with
      | some c => setCar s.cars carID (some { c with isConnected := false })
      | none => s.cars
    { s with
      cars := cars'
      totalDisconnections := s.totalDisconnections + 1 }

/-- handleLapCompleted: below nine payload bytes the frame is dropped;
otherwise read the slot id, lap time and cut count (used only for the printed
line) and increment the laps counter. -/
def handleLapCompleted (s : MonitorState) (data : Bytes) : MonitorState :=
  if data.length < 9 then s
  else
    let (_carID, r1) := readU8 data
    let (_lapTime, r2) := readU32 r1
    let (_cuts, _) := readU8 r2
    { s with totalLaps := s.totalLaps + 1 }

/-- The record built by handleCarInfo from the payload alone: slot id byte,
connected byte (flag set when it equals one), then model, skin, name and GUID
strings. -/
def carInfoRecord (data : Bytes) : CarInfo :=
  let (carID, r1) := readU8 data
  let (isConnected, r2) := readU8 r1
  let (carModel, r3) := readString r2
  let (carSkin, r4) := readString r3
  let (driverName, r5) := readString r4
  let (driverGUID, _) := readString r5
  { carID := carID
    isConnected := isConnected == 1
    carModel := carModel
    carSkin := carSkin
    driverName := driverName
    driverGUID := driverGUID }

/-- handleCarInfo: below one payload byte the frame is dropped; otherwise the
slot record is replaced wholesale by a fresh record built from the payload. -/
def handleCarInfo (s : MonitorState) (data : Bytes) : MonitorState :=
  if data.length < 1 then s
  else
    let rec' := carInfoRecord data
    { s with cars := setCar s.cars rec'.carID (some rec') }

/-- The three-entry admin-protocol session type table of handleSessionInfo. -/
def sessionTypeTable : List String := ["Practice", "Qualifying", "Race"]

/-- handleSessionInfo: below thirteen payload bytes the frame is dropped;
otherwise read four uint8 values, the server name string, the session type
byte, three uint16 values and four further strings (consumed, not surfaced),
then overwrite the context server name and the session type label looked up in
the three-entry table, defaulting to "Unknown". -/
def handleSessionInfo (s : MonitorState) (data : Bytes) : MonitorState :=
  if data.length < 13 then s
  else
    let (_version, r1) := readU8 data
    let (_sessionIndex, r2) := readU8 r1
    let (_currentSessionIndex, r3) := readU8 r2
    let (_sessionCount, r4) := readU8 r3
    let (serverName, r5) := readString r4
    let (sessionType, r6) := readU8 r5
    let (_sessionTime, r7) := readU16 r6
    let (_laps, r8) := readU16 r7
    let (_waitTime, r9) := readU16 r8
    let (_, r10) := readString r9
    let (_, r11) := readString r10
    let (_, r12) := readString r11
    let (_, _) := readString r12
    let sessionTypeName := (sessionTypeTable.get? sessionType).getD "Unknown"
    { s with serverName := serverName, sessionType := sessionTypeName }

/-- handleClientEvent: below two payload bytes the frame is dropped; otherwise
read the slot id and event type bytes (used only for the printed line) and
increment the collisions counter regardless of the event sub-type. -/
def handleClientEvent (s : MonitorState) (data : Bytes) : MonitorState :=
  if data.length < 2 then s
  else
    let (_carID, r1) := readU8 data
    let (_eventType, _) := readU8 r1
    { s with totalCollisions := s.totalCollisions + 1 }

/-- handleChat: below one payload byte the frame is dropped; otherwise the
slot id byte and message string are decoded for the printed line only and no
state is mutated. -/
def handleChat (s : MonitorState) (data : Bytes) : MonitorState :=
  if data.length < 1 then s
  else
    let (_carID, r1) := readU8 data
    let (_message, _) := readString r1
    s

/-- handleMessage: the first byte selects the handler for the remaining
payload; the tags without a case in the switch leave the state unchanged. -/
def handleMessage (s : MonitorState) (data : Bytes) : MonitorState :=
  match data with
  | [] => s
  | msgType :: rest =>
    if msgType = ACSP_NEW_SESSION then handleNewSession s rest
    else if msgType = ACSP_NEW_CONNECTION then handleNewConnection s rest
    else if msgType = ACSP_CONNECTION_CLOSED then handleConnectionClosed s rest
    else if msgType = ACSP_LAP_COMPLETED then handleLapCompleted s rest
    else if msgType = ACSP_CAR_INFO then handleCarInfo s rest
    else if msgType = ACSP_SESSION_INFO then handleSessionInfo s rest
    else if msgType = ACSP_CLIENT_EVENT then handleClientEvent s rest
    else if msgType = ACSP_CHAT then handleChat s rest
    else s

/-- The decode loop applied to a finite arrival sequence of datagrams. -/
def processMessages (s : MonitorState) (frames : List Bytes) : MonitorState :=
  frames.foldl handleMessage s

/-- GetConnectedCount: count the slot records whose connected flag is set. -/
def GetConnectedCount (s : MonitorState) : Nat :=
  ((List.range 256).filter (fun i =>
    match s.cars i with
    | some car => car.isConnected
    | none => false)).length

/-- A frame that handleMessage routes to handleNewConnection and that passes
its minimum payload length check, hence counts as a processed new-connection
event. -/
def isNewConnectionFrame (d : Bytes) : Bool :=
  match d with
  | [] => false
  | t :: payload => t == ACSP_NEW_CONNECTION && decide (1 ≤ payload.length)

/-- A processed connection-closed event. -/
def isConnectionClosedFrame (d : Bytes) : Bool :=
  match d with
  | [] => false
  | t :: payload => t == ACSP_CONNECTION_CLOSED && decide (1 ≤ payload.length)

/-- A processed lap-completed event. -/
def isLapCompletedFrame (d : Bytes) : Bool :=
  match d with
  | [] => false
  | t :: payload => t == ACSP_LAP_COMPLETED && decide (9 ≤ payload.length)

/-- A processed client-event. -/
def isClientEventFrame (d : Bytes) : Bool :=
  match d with
  | [] => false
  | t :: payload => t == ACSP_CLIENT_EVENT && decide (2 ≤ payload.length)

/-- The fixed minimum payload length each handler checks before decoding. -/
def minPayload (tag : Nat) : Nat :=
  if tag = ACSP_NEW_SESSION then 4
  else if tag = ACSP_NEW_CONNECTION then 1
  else if tag = ACSP_CONNECTION_CLOSED then 1
  else if tag = ACSP_LAP_COMPLETED then 9
  else if tag = ACSP_CAR_INFO then 1
  else if tag = ACSP_SESSION_INFO then 13
  else if tag = ACSP_CLIENT_EVENT then 2
  else if tag = ACSP_CHAT then 1
  else 0

/-- The driver name decoded by handleNewConnection from a new-connection
payload. -/
def ncName (data : Bytes) : Bytes := (readString data).1

/-- The driver GUID decoded by handleNewConnection. -/
def ncGUID (data : Bytes) : Bytes := (readString (readString data).2).1

/-- The slot id decoded by handleNewConnection: the byte after the two
strings. -/
def ncSlot (data : Bytes) : Nat := (readU8 (readString (readString data).2).2).1

/-- The slot id decoded by handleConnectionClosed: the byte after the driver
name string. -/
def ccSlot (data : Bytes) : Nat := (readU8 (readString data).2).1

/-- The slot id decoded by handleCarInfo: the first payload byte. -/
def ciSlot (data : Bytes) : Nat := (readU8 data).1

/-- The outcome of one HTTP GET of the INFO endpoint, as seen by
FetchHTTPInfo: the transport may fail (client.Get error), reading the body may
fail (io.ReadAll error), or a response arrives carrying a status code and a
body whose json.Unmarshal outcome is `parsed` (none on a parse error).  The
source never reads the response status code. -/
inductive HTTPResult where
  | transportError
  | readError
  | response (status : Nat) (parsed : Option ServerInfo)
deriving DecidableEq, Repr

/-- FetchHTTPInfo from http_client.go: on a transport error, a body read error
or a JSON parse error the function returns the error and the state is
untouched; otherwise the snapshot record is replaced wholesale by the parsed
record.  The Bool is true exactly when the source returns nil.  The response
status is ignored exactly as the source never inspects it. -/
def FetchHTTPInfo (s : MonitorState) : HTTPResult → MonitorState × Bool
  | .transportError => (s, false)
  | .readError => (s, false)
  | .response _ none => (s, false)
  | .response _ (some info) => ({ s with serverInfo := some info }, true)

/-- escapeLabelValue from prometheus.go: escape backslash, double quote and
newline, in that order. -/
def escapeLabelValue (s : String) : String :=
  ((s.replace "\\" "\\\\").replace "\"" "\\\"").replace "\n" "\\n"

/-- The HELP and TYPE comment lines written unconditionally at the top of the
metrics body. -/
def helpBlock : String :=
  "# HELP ac_server_up Server availability (1 = up, 0 = down)\n"
  ++ "# TYPE ac_server_up gauge\n"
  ++ "# HELP ac_server_players Current number of connected players\n"
  ++ "# TYPE ac_server_players gauge\n"
  ++ "# HELP ac_server_max_players Maximum player capacity\n"
  ++ "# TYPE ac_server_max_players gauge\n"
  ++ "# HELP ac_server_session Current session type (0=Booking, 1=Practice, 2=Qualifying, 3=Race)\n"
  ++ "# TYPE ac_server_session gauge\n"
  ++ "# HELP ac_server_cars_available Number of available car models\n"
  ++ "# TYPE ac_server_cars_available gauge\n"
  ++ "# HELP ac_server_password_protected Whether server requires password\n"
  ++ "# TYPE ac_server_password_protected gauge\n"
  ++ "# HELP ac_server_pickup_mode Whether pickup mode is enabled\n"
  ++ "# TYPE ac_server_pickup_mode gauge\n"
  ++ "# HELP ac_server_time_left Time remaining in current session (seconds)\n"
  ++ "# TYPE ac_server_time_left gauge\n"
  ++ "# HELP ac_server_lap_completed_total Total laps completed\n"
  ++ "# TYPE ac_server_lap_completed_total counter\n"
  ++ "# HELP ac_server_collisions_total Total collision events\n"
  ++ "# TYPE ac_server_collisions_total counter\n"
  ++ "# HELP ac_server_connections_total Total player connections\n"
  ++ "# TYPE ac_server_connections_total counter\n"
  ++ "# HELP ac_server_disconnections_total Total player disconnections\n"
  ++ "# TYPE ac_server_disconnections_total counter\n"

/-- The shared label set of the gauge lines. -/
def labelSet (info : ServerInfo) : String :=
  "server_name=\"" ++ escapeLabelValue info.name
  ++ "\",track=\"" ++ escapeLabelValue info.track
  ++ "\",powered_by=\"" ++ escapeLabelValue info.poweredBy ++ "\""

/-- The labeled gauge lines written when a snapshot record is present. -/
def gaugeBlock (info : ServerInfo) : String :=
  let labels := labelSet info
  let passwordProtected : Nat := if info.pass then 1 else 0
  let pickupMode : Nat := if info.pickupMode then 1 else 0
  "ac_server_up\x7b" ++ labels ++ "\x7d 1\n"
  ++ "ac_server_players\x7b" ++ labels ++ "\x7d " ++ toString info.clients ++ "\n"
  ++ "ac_server_max_players\x7b" ++ labels ++ "\x7d " ++ toString info.maxClients ++ "\n"
  ++ "ac_server_session\x7b" ++ labels ++ "\x7d " ++ toString info.session ++ "\n"
  ++ "ac_server_cars_available\x7b" ++ labels ++ "\x7d " ++ toString info.cars.length ++ "\n"
  ++ "ac_server_password_protected\x7b" ++ labels ++ "\x7d " ++ toString passwordProtected ++ "\n"
  ++ "ac_server_pickup_mode\x7b" ++ labels ++ "\x7d " ++ toString pickupMode ++ "\n"
  ++ "ac_server_time_left\x7b" ++ labels ++ "\x7d " ++ toString info.timeLeft ++ "\n"

/-- The fixed sentinel lines written when no snapshot has ever succeeded. -/
def downBlock : String :=
  "ac_server_up 0\nac_server_players 0\nac_server_max_players 0\n"

/-- The unlabeled lifetime counter lines, written last. -/
def counterBlock (s : MonitorState) : String :=
  "ac_server_lap_completed_total " ++ toString s.totalLaps ++ "\n"
  ++ "ac_server_collisions_total " ++ toString s.totalCollisions ++ "\n"
  ++ "ac_server_connections_total " ++ toString s.totalConnections ++ "\n"
  ++ "ac_server_disconnections_total " ++ toString s.totalDisconnections ++ "\n"

/-- The metrics body assembled by the handler in prometheus.go from a given
state: the comment block, then the labeled gauges when a snapshot record is
present and the sentinel lines otherwise, then the counter lines. -/
def prometheusBody (s : MonitorState) : String :=
  helpBlock
  ++ (match s.serverInfo with
      | some info => gaugeBlock info
      | none => downBlock)
  ++ counterBlock s

/-- PrometheusHandler from prometheus.go: serving a scrape first performs an
opportunistic snapshot refresh (whose outcome is the given HTTPResult), then
renders the metrics body from the refreshed state. -/
def PrometheusHandler (s : MonitorState) (r : HTTPResult) : String :=
  prometheusBody (FetchHTTPInfo s r).1

/-- A concrete snapshot record used to exercise the poll semantics. -/
def sampleInfo : ServerInfo :=
  { cars := ["car_a"]
    clients := 2
    track := "monza"
    name := "My Server"
    maxClients := 10
    port := 9600
    pickupMode := true
    session := 1
    sessionTypes := [1, 2, 3]
    country := ["FR"]
    pass := false
    timestamp := 0
    timeLeft := 300
    timeOfDay := 12
    poweredBy := "x" }

/-- One frame changes each lifetime counter by one exactly when it is a
processed event of the corresponding kind, and leaves it unchanged
otherwise. -/
theorem counters_handleMessage (s : MonitorState) (d : Bytes) :
    (handleMessage s d).totalLaps
      = s.totalLaps + (if isLapCompletedFrame d then 1 else 0)
    ∧ (handleMessage s d).totalCollisions
      = s.totalCollisions + (if isClientEventFrame d then 1 else 0)
    ∧ (handleMessage s d).totalConnections
      = s.totalConnections + (if isNewConnectionFrame d then 1 else 0)
    ∧ (handleMessage s d).totalDisconnections
      = s.totalDisconnections + (if isConnectionClosedFrame d then 1 else 0) := by
  match d with
  | [] => exact ⟨rfl, rfl, rfl, rfl⟩
  | t :: payload =>
    simp only [handleMessage, isLapCompletedFrame, isClientEventFrame,
      isNewConnectionFrame, isConnectionClosedFrame]
    split_ifs with h1 h2 h3 h4 h5 h6 h7 h8 <;>
      simp_all [ACSP_NEW_SESSION, ACSP_NEW_CONNECTION, ACSP_CONNECTION_CLOSED,
        ACSP_LAP_COMPLETED, ACSP_CAR_INFO, ACSP_SESSION_INFO, ACSP_CLIENT_EVENT,
        ACSP_CHAT, handleNewSession, handleNewConnection, handleConnectionClosed,
        handleLapCompleted, handleCarInfo, handleSessionInfo, handleClientEvent,
        handleChat] <;>
      split_ifs <;> simp_all <;> omega

/-- Over a frame sequence each lifetime counter grows by exactly the number of
processed events of its kind. -/
theorem counters_processMessages (s : MonitorState) (frames : List Bytes) :
    (processMessages s frames).totalLaps
      = s.totalLaps + frames.countP isLapCompletedFrame
    ∧ (processMessages s frames).totalCollisions
      = s.totalCollisions + frames.countP isClientEventFrame
    ∧ (processMessages s frames).totalConnections
      = s.totalConnections + frames.countP isNewConnectionFrame
    ∧ (processMessages s frames).totalDisconnections
      = s.totalDisconnections + frames.countP isConnectionClosedFrame := by
  induction frames generalizing s with
  | nil => exact ⟨rfl, rfl, rfl, rfl⟩
  | cons f fs ih =>
    obtain ⟨hl, hc, hcn, hd⟩ := counters_handleMessage s f
    obtain ⟨il, ic, icn, id'⟩ := ih (handleMessage s f)
    simp only [processMessages, List.foldl_cons] at *
    refine ⟨?_, ?_, ?_, ?_⟩ <;>
      simp [List.countP_cons, il, ic, icn, id', hl, hc, hcn, hd] <;> omega

/-- Past its minimum length check, handleConnectionClosed rewrites the slot
map as follows: flip the connected flag of the named slot when present, leave
the map alone when absent. -/
theorem handleConnectionClosed_cars (s : MonitorState) (payload : Bytes)
    (h : ¬ payload.length < 1) :
    (handleConnectionClosed s payload).cars
      = match s.cars (ccSlot payload) with
        | some c => setCar s.cars (ccSlot payload) (some { c with isConnected := false })
        | none => s.cars := by
  unfold handleConnectionClosed; rw [if_neg h]; exact rfl

/-- Past its minimum length check, handleNewConnection writes the named slot
with the prior record (or the zero record), overwriting id, flag, name and
GUID. -/
theorem handleNewConnection_cars (s : MonitorState) (payload : Bytes)
    (h : ¬ payload.length < 1) :
    (handleNewConnection s payload).cars
      = setCar s.cars (ncSlot payload)
          (some { ((s.cars (ncSlot payload)).getD CarInfo.empty) with
                  carID := ncSlot payload
                  isConnected := true
                  driverName := ncName payload
                  driverGUID := ncGUID payload }) := by
  unfold handleNewConnection; rw [if_neg h]; exact rfl

/-- Past its minimum length check, handleCarInfo writes the named slot with
the record decoded from the payload alone. -/
theorem handleCarInfo_cars (s : MonitorState) (payload : Bytes)
    (h : ¬ payload.length < 1) :
    (handleCarInfo s payload).cars
      = setCar s.cars (ciSlot payload) (some (carInfoRecord payload)) := by
  unfold handleCarInfo; rw [if_neg h]; exact rfl

/-- handleNewSession never touches the slot map. -/
theorem handleNewSession_cars (s : MonitorState) (payload : Bytes) :
    (handleNewSession s payload).cars = s.cars := by
  unfold handleNewSession; split <;> rfl

/-- handleLapCompleted never touches the slot map. -/
theorem handleLapCompleted_cars (s : MonitorState) (payload : Bytes) :
    (handleLapCompleted s payload).cars = s.cars := by
  unfold handleLapCompleted; split <;> rfl

/-- handleSessionInfo never touches the slot map. -/
theorem handleSessionInfo_cars (s : MonitorState) (payload : Bytes) :
    (handleSessionInfo s payload).cars = s.cars := by
  unfold handleSessionInfo; split <;> rfl

/-- handleClientEvent never touches the slot map. -/
theorem handleClientEvent_cars (s : MonitorState) (payload : Bytes) :
    (handleClientEvent s payload).cars = s.cars := by
  unfold handleClientEvent; split <;> rfl

/-- handleChat never touches the slot map. -/
theorem handleChat_cars (s : MonitorState) (payload : Bytes) :
    (handleChat s payload).cars = s.cars := by
  unfold handleChat; split <;> rfl

/-- C1 counterexample: the new-connection frame [4, 5, 65, 108, 105] declares
a five byte driver name while only three bytes remain, so per the claim it
must be discarded with no state change; instead processing it creates a roster
record for slot 0 (the missing slot id byte decodes as zero) holding the
truncated name and increments the connections counter. -/
theorem truncated_frame_partially_applied :
    (handleMessage initState [4, 5, 65, 108, 105]).cars 0
      = some ⟨0, true, [], [], [65, 108, 105], []⟩
    ∧ initState.cars 0 = none
    ∧ (handleMessage initState [4, 5, 65, 108, 105]).totalConnections = 1
    ∧ initState.totalConnections = 0 :=
  ⟨by decide, rfl, rfl, rfl⟩

/-- C1 amended: a frame whose payload is shorter than the fixed minimum length
its kind checks is discarded with no state change at all; but a
length-prefixed text field whose declared length exceeds the remaining buffer
does not cause a discard — the handler keeps going with the truncated bytes
and zero defaults, so such frames are partially applied. -/
theorem below_minimum_frame_discarded (s : MonitorState) (tag : Nat)
    (payload : Bytes) (h : payload.length < minPayload tag) :
    handleMessage s (tag :: payload) = s := by
  simp only [minPayload] at h
  simp only [handleMessage]
  split_ifs at h ⊢ <;>
    simp_all [handleNewSession, handleNewConnection, handleConnectionClosed,
      handleLapCompleted, handleCarInfo, handleSessionInfo, handleClientEvent,
      handleChat]

/-- C1 witness: a lap-completed frame carrying five of the required nine
payload bytes is dropped without any state change. -/
theorem below_minimum_frame_discarded_witness :
    ([1, 2, 3, 4, 5] : Bytes).length < minPayload ACSP_LAP_COMPLETED
    ∧ handleMessage initState (ACSP_LAP_COMPLETED :: [1, 2, 3, 4, 5]) = initState :=
  ⟨by decide,
   below_minimum_frame_discarded initState ACSP_LAP_COMPLETED [1, 2, 3, 4, 5] (by decide)⟩

/-- C2: the connections counter equals exactly the number of processed
new-connection events and the disconnections counter the number of processed
connection-closed events, both from the initial state and as an increment over
an arbitrary starting state — hence independent of the roster contents. -/
theorem connection_counters_equal_event_counts :
    (∀ frames : List Bytes,
       (processMessages initState frames).totalConnections
         = frames.countP isNewConnectionFrame
       ∧ (processMessages initState frames).totalDisconnections
         = frames.countP isConnectionClosedFrame)
    ∧ (∀ (s : MonitorState) (frames : List Bytes),
       (processMessages s frames).totalConnections
         = s.totalConnections + frames.countP isNewConnectionFrame
       ∧ (processMessages s frames).totalDisconnections
         = s.totalDisconnections + frames.countP isConnectionClosedFrame) := by
  constructor
  · intro frames
    obtain ⟨-, -, h1, h2⟩ := counters_processMessages initState frames
    exact ⟨by simpa [initState] using h1, by simpa [initState] using h2⟩
  · intro s frames
    obtain ⟨-, -, h1, h2⟩ := counters_processMessages s frames
    exact ⟨h1, h2⟩

/-- C3: a slot-info event replaces the record of its slot wholesale with a
record computed from the payload alone (carInfoRecord takes no state), and
leaves every other slot untouched. -/
theorem carinfo_replaces_record_wholesale (s : MonitorState) (payload : Bytes)
    (h : 1 ≤ payload.length) :
    (handleMessage s (ACSP_CAR_INFO :: payload)).cars (ciSlot payload)
      = some (carInfoRecord payload)
    ∧ (∀ j, j ≠ ciSlot payload →
        (handleMessage s (ACSP_CAR_INFO :: payload)).cars j = s.cars j) := by
  have hx : ¬ payload.length < 1 := by omega
  constructor
  · show (handleCarInfo s payload).cars (ciSlot payload) = some (carInfoRecord payload)
    rw [handleCarInfo_cars s payload hx]
    simp [setCar]
  · intro j hj
    show (handleCarInfo s payload).cars j = s.cars j
    rw [handleCarInfo_cars s payload hx]
    simp only [setCar]
    rw [if_neg hj]

/-- C3 witness: the two byte slot-info payload [3, 1] replaces the record of
slot 3 with the record decoded from the payload alone. -/
theorem carinfo_replaces_record_wholesale_witness :
    1 ≤ ([3, 1] : Bytes).length
    ∧ (handleMessage initState (ACSP_CAR_INFO :: [3, 1])).cars (ciSlot [3, 1])
        = some (carInfoRecord [3, 1]) :=
  ⟨by decide, (carinfo_replaces_record_wholesale initState [3, 1] (by decide)).1⟩

/-- C4: a connection-closed event only clears the connected flag of the named
slot when its record exists, preserving the other record fields and every
other slot; when no record exists the roster is unchanged and the only state
change is the disconnections counter increment; in all cases the other
counters and the session context are untouched. -/
theorem connection_closed_flips_flag_only (s : MonitorState) (payload : Bytes)
    (h : 1 ≤ payload.length) :
    (∀ rec : CarInfo, s.cars (ccSlot payload) = some rec →
        (handleMessage s (ACSP_CONNECTION_CLOSED :: payload)).cars (ccSlot payload)
          = some { rec with isConnected := false }
        ∧ ∀ j, j ≠ ccSlot payload →
            (handleMessage s (ACSP_CONNECTION_CLOSED :: payload)).cars j = s.cars j)
    ∧ (s.cars (ccSlot payload) = none →
        handleMessage s (ACSP_CONNECTION_CLOSED :: payload)
          = { s with totalDisconnections := s.totalDisconnections + 1 })
    ∧ (handleMessage s (ACSP_CONNECTION_CLOSED :: payload)).totalDisconnections
        = s.totalDisconnections + 1
    ∧ (handleMessage s (ACSP_CONNECTION_CLOSED :: payload)).totalLaps = s.totalLaps
    ∧ (handleMessage s (ACSP_CONNECTION_CLOSED :: payload)).totalCollisions
        = s.totalCollisions
    ∧ (handleMessage s (ACSP_CONNECTION_CLOSED :: payload)).totalConnections
        = s.totalConnections
    ∧ (handleMessage s (ACSP_CONNECTION_CLOSED :: payload)).serverName = s.serverName
    ∧ (handleMessage s (ACSP_CONNECTION_CLOSED :: payload)).trackName = s.trackName
    ∧ (handleMessage s (ACSP_CONNECTION_CLOSED :: payload)).sessionType = s.sessionType
    ∧ (handleMessage s (ACSP_CONNECTION_CLOSED :: payload)).serverInfo = s.serverInfo := by
  have hx : ¬ payload.length < 1 := by omega
  have hmsg : handleMessage s (ACSP_CONNECTION_CLOSED :: payload)
      = handleConnectionClosed s payload := rfl
  rw [hmsg]
  unfold handleConnectionClosed
  rw [if_neg hx]
  refine ⟨?_, ?_, rfl, rfl, rfl, rfl, rfl, rfl, rfl, rfl⟩
  · intro rec hrec
    simp only [ccSlot] at hrec
    simp only [hrec, setCar]
    constructor
    · simp [ccSlot]
    · intro j hj
      simp only [ccSlot] at hj
      simp [if_neg hj]
  · intro hnone
    simp only [ccSlot] at hnone
    simp only [hnone]

/-- C4 witness: closing slot 3 after Alice connected on slot 3 flips only the
connected flag of her record. -/
theorem connection_closed_flips_flag_only_witness :
    1 ≤ ([0, 3] : Bytes).length
    ∧ (handleMessage initState [4, 5, 65, 108, 105, 99, 101, 2, 103, 49, 3, 5, 0]).cars
        (ccSlot [0, 3])
        = some ⟨3, true, [], [], [65, 108, 105, 99, 101], [103, 49]⟩
    ∧ (handleMessage (handleMessage initState [4, 5, 65, 108, 105, 99, 101, 2, 103, 49, 3, 5, 0])
          (ACSP_CONNECTION_CLOSED :: [0, 3])).cars (ccSlot [0, 3])
        = some ⟨3, false, [], [], [65, 108, 105, 99, 101], [103, 49]⟩ :=
  ⟨by decide, by decide,
   ((connection_closed_flips_flag_only
       (handleMessage initState [4, 5, 65, 108, 105, 99, 101, 2, 103, 49, 3, 5, 0])
       [0, 3] (by decide)).1
     ⟨3, true, [], [], [65, 108, 105, 99, 101], [103, 49]⟩ (by decide)).1⟩

/-- C5: a new-connection event on a slot holding a record overwrites only the
slot id, connected flag, driver name and driver GUID of that record, keeps its
vehicle model and skin, and leaves every other slot untouched. -/
theorem new_connection_preserves_model_and_skin (s : MonitorState)
    (payload : Bytes) (rec : CarInfo) (h : 1 ≤ payload.length)
    (hrec : s.cars (ncSlot payload) = some rec) :
    (handleMessage s (ACSP_NEW_CONNECTION :: payload)).cars (ncSlot payload)
      = some { rec with
               carID := ncSlot payload
               isConnected := true
               driverName := ncName payload
               driverGUID := ncGUID payload }
    ∧ ∀ j, j ≠ ncSlot payload →
        (handleMessage s (ACSP_NEW_CONNECTION :: payload)).cars j = s.cars j := by
  have hx : ¬ payload.length < 1 := by omega
  have hmsg : handleMessage s (ACSP_NEW_CONNECTION :: payload)
      = handleNewConnection s payload := rfl
  rw [hmsg, handleNewConnection_cars s payload hx]
  simp only [hrec, Option.getD_some, setCar]
  constructor
  · simp
  · intro j hj
    simp [if_neg hj]

/-- C5 witness: after a slot-info event stored model "ab" and skin "c" for
slot 3, a new-connection event for Alice on slot 3 keeps the model and skin
while overwriting id, flag, name and GUID. -/
theorem new_connection_preserves_model_and_skin_witness :
    1 ≤ ([5, 65, 108, 105, 99, 101, 2, 103, 49, 3, 5, 0] : Bytes).length
    ∧ (handleMessage initState
        (ACSP_CAR_INFO :: [3, 0, 2, 97, 98, 1, 99, 3, 66, 111, 98, 2, 103, 50])).cars
        (ncSlot [5, 65, 108, 105, 99, 101, 2, 103, 49, 3, 5, 0])
        = some ⟨3, false, [97, 98], [99], [66, 111, 98], [103, 50]⟩
    ∧ (handleMessage
        (handleMessage initState
          (ACSP_CAR_INFO :: [3, 0, 2, 97, 98, 1, 99, 3, 66, 111, 98, 2, 103, 50]))
        (ACSP_NEW_CONNECTION :: [5, 65, 108, 105, 99, 101, 2, 103, 49, 3, 5, 0])).cars
        (ncSlot [5, 65, 108, 105, 99, 101, 2, 103, 49, 3, 5, 0])
        = some ⟨3, true, [97, 98], [99], [65, 108, 105, 99, 101], [103, 49]⟩ :=
  ⟨by decide, by decide,
   (new_connection_preserves_model_and_skin
      (handleMessage initState
        (ACSP_CAR_INFO :: [3, 0, 2, 97, 98, 1, 99, 3, 66, 111, 98, 2, 103, 50]))
      [5, 65, 108, 105, 99, 101, 2, 103, 49, 3, 5, 0]
      ⟨3, false, [97, 98], [99], [66, 111, 98], [103, 50]⟩
      (by decide) (by decide)).1⟩

/-- C6: for any interleaving of frames from the initial state the
connected-count query returns exactly the number of roster records whose
connected flag is true; and the scenario — a new-connection for slot 3 (Alice,
GUID g1, model 5, skin 0) then a connection-closed for slot 3 — yields
connected-count 0, driver name Alice still stored for slot 3, and both
counters equal to one. -/
theorem connected_count_matches_roster :
    (∀ frames : List Bytes,
       GetConnectedCount (processMessages initState frames)
         = (List.range 256).countP (fun i =>
             match (processMessages initState frames).cars i with
             | some car => car.isConnected
             | none => false))
    ∧ GetConnectedCount (processMessages initState
        [[4, 5, 65, 108, 105, 99, 101, 2, 103, 49, 3, 5, 0],
         [5, 5, 65, 108, 105, 99, 101, 3]]) = 0
    ∧ ((processMessages initState
        [[4, 5, 65, 108, 105, 99, 101, 2, 103, 49, 3, 5, 0],
         [5, 5, 65, 108, 105, 99, 101, 3]]).cars 3).map CarInfo.driverName
        = some [65, 108, 105, 99, 101]
    ∧ (processMessages initState
        [[4, 5, 65, 108, 105, 99, 101, 2, 103, 49, 3, 5, 0],
         [5, 5, 65, 108, 105, 99, 101, 3]]).totalConnections = 1
    ∧ (processMessages initState
        [[4, 5, 65, 108, 105, 99, 101, 2, 103, 49, 3, 5, 0],
         [5, 5, 65, 108, 105, 99, 101, 3]]).totalDisconnections = 1 := by
  refine ⟨fun frames => (List.countP_eq_length_filter _ _).symm,
    by decide, by decide, by decide, by decide⟩

/-- C7: each lifetime counter is incremented by exactly one per processed
event of its kind, is unchanged by every other frame, and is non-decreasing
over any processed frame sequence. -/
theorem counters_monotone_exact_increments :
    (∀ (s : MonitorState) (d : Bytes),
       (handleMessage s d).totalLaps
         = s.totalLaps + (if isLapCompletedFrame d then 1 else 0)
       ∧ (handleMessage s d).totalCollisions
         = s.totalCollisions + (if isClientEventFrame d then 1 else 0)
       ∧ (handleMessage s d).totalConnections
         = s.totalConnections + (if isNewConnectionFrame d then 1 else 0)
       ∧ (handleMessage s d).totalDisconnections
         = s.totalDisconnections + (if isConnectionClosedFrame d then 1 else 0))
    ∧ (∀ (s : MonitorState) (frames : List Bytes),
       s.totalLaps ≤ (processMessages s frames).totalLaps
       ∧ s.totalCollisions ≤ (processMessages s frames).totalCollisions
       ∧ s.totalConnections ≤ (processMessages s frames).totalConnections
       ∧ s.totalDisconnections ≤ (processMessages s frames).totalDisconnections)
    ∧ (∀ (s : MonitorState) (r : HTTPResult),
       (FetchHTTPInfo s r).1.totalLaps = s.totalLaps
       ∧ (FetchHTTPInfo s r).1.totalCollisions = s.totalCollisions
       ∧ (FetchHTTPInfo s r).1.totalConnections = s.totalConnections
       ∧ (FetchHTTPInfo s r).1.totalDisconnections = s.totalDisconnections) := by
  refine ⟨counters_handleMessage, fun s frames => ?_, fun s r => ?_⟩
  · obtain ⟨h1, h2, h3, h4⟩ := counters_processMessages s frames
    exact ⟨by omega, by omega, by omega, by omega⟩
  · match r with
    | .transportError => exact ⟨rfl, rfl, rfl, rfl⟩
    | .readError => exact ⟨rfl, rfl, rfl, rfl⟩
    | .response st none => exact ⟨rfl, rfl, rfl, rfl⟩
    | .response st (some info) => exact ⟨rfl, rfl, rfl, rfl⟩

/-- C8 counterexample: an HTTP error response (status 500) whose body still
unmarshals as JSON — for example a body holding an empty object — replaces the
previously stored snapshot record, because the source never inspects the
response status; the stored record is therefore not left untouched on an HTTP
error response. -/
theorem http_error_response_replaces_snapshot :
    (FetchHTTPInfo { initState with serverInfo := some sampleInfo }
        (HTTPResult.response 500 (some ServerInfo.zero))).1.serverInfo
      = some ServerInfo.zero
    ∧ some ServerInfo.zero ≠ some sampleInfo :=
  ⟨rfl, by decide⟩

/-- C8 amended: a successful poll replaces the snapshot record wholesale; a
transport error, a body read error or a JSON parse error leaves the state
untouched, so serving metrics after such a failed refresh renders the prior
cached record; an HTTP error status alone is not treated as a failure. When no
poll ever succeeded the body is the fixed sentinel block in place of the
labeled gauges. -/
theorem snapshot_poll_and_sentinel_semantics :
    (∀ (s : MonitorState) (status : Nat) (info : ServerInfo),
        FetchHTTPInfo s (HTTPResult.response status (some info))
          = ({ s with serverInfo := some info }, true))
    ∧ (∀ s : MonitorState, FetchHTTPInfo s HTTPResult.transportError = (s, false))
    ∧ (∀ s : MonitorState, FetchHTTPInfo s HTTPResult.readError = (s, false))
    ∧ (∀ (s : MonitorState) (status : Nat),
        FetchHTTPInfo s (HTTPResult.response status none) = (s, false))
    ∧ (∀ (s : MonitorState) (r : HTTPResult),
        (FetchHTTPInfo s r).2 = false → PrometheusHandler s r = prometheusBody s)
    ∧ (∀ s : MonitorState, s.serverInfo = none →
        prometheusBody s = helpBlock ++ downBlock ++ counterBlock s) := by
  refine ⟨fun s status info => rfl, fun s => rfl, fun s => rfl, fun s status => rfl, ?_, ?_⟩
  · intro s r hr
    unfold PrometheusHandler
    match r with
    | .transportError => rfl
    | .readError => rfl
    | .response st none => rfl
    | .response st (some info) => simp [FetchHTTPInfo] at hr
  · intro s hs
    unfold prometheusBody
    rw [hs]

/-- C8 witness: a failed refresh of the fresh state serves the body rendered
from the unchanged state, which is the sentinel block. -/
theorem snapshot_poll_and_sentinel_semantics_witness :
    (FetchHTTPInfo initState HTTPResult.transportError).2 = false
    ∧ PrometheusHandler initState HTTPResult.transportError = prometheusBody initState
    ∧ initState.serverInfo = none
    ∧ prometheusBody initState = helpBlock ++ downBlock ++ counterBlock initState :=
  ⟨rfl,
   snapshot_poll_and_sentinel_semantics.2.2.2.2.1 initState HTTPResult.transportError rfl,
   rfl,
   snapshot_poll_and_sentinel_semantics.2.2.2.2.2 initState rfl⟩

/-- C9 counterexample: the connection-closed frame [5, 0, 3] references slot 3
(empty driver name, slot id 3), yet after processing it from the initial state
no record exists for slot 3 — only new-connection and slot-info events create
records, contradicting the claim that an event of any kind does. -/
theorem closed_event_creates_no_record :
    (processMessages initState [[5, 0, 3]]).cars 3 = none
    ∧ (processMessages initState [[5, 0, 3]]).totalDisconnections = 1 :=
  ⟨by decide, by decide⟩

/-- C9 amended: a roster record is never deleted once present; a record for
the named slot exists after any new-connection or slot-info event; and
connection-closed, lap-completed, client-event and chat events never create a
record for a slot that has none. -/
theorem roster_creation_and_persistence :
    (∀ (s : MonitorState) (d : Bytes) (j : Nat),
        s.cars j ≠ none → (handleMessage s d).cars j ≠ none)
    ∧ (∀ (s : MonitorState) (payload : Bytes), 1 ≤ payload.length →
        (handleMessage s (ACSP_NEW_CONNECTION :: payload)).cars (ncSlot payload) ≠ none
        ∧ (handleMessage s (ACSP_CAR_INFO :: payload)).cars (ciSlot payload) ≠ none)
    ∧ (∀ (s : MonitorState) (payload : Bytes) (j : Nat), s.cars j = none →
        (handleMessage s (ACSP_CONNECTION_CLOSED :: payload)).cars j = none
        ∧ (handleMessage s (ACSP_LAP_COMPLETED :: payload)).cars j = none
        ∧ (handleMessage s (ACSP_CLIENT_EVENT :: payload)).cars j = none
        ∧ (handleMessage s (ACSP_CHAT :: payload)).cars j = none) := by
  refine ⟨?_, ?_, ?_⟩
  · intro s d j hj
    match d with
    | [] => exact hj
    | t :: payload =>
      simp only [handleMessage]
      split_ifs with h1 h2 h3 h4 h5 h6 h7 h8
      · rw [handleNewSession_cars]; exact hj
      · by_cases hlen : payload.length < 1
        · unfold handleNewConnection; rw [if_pos hlen]; exact hj
        · rw [handleNewConnection_cars s payload hlen]
          simp only [setCar]
          split_ifs with he
          · simp
          · exact hj
      · by_cases hlen : payload.length < 1
        · unfold handleConnectionClosed; rw [if_pos hlen]; exact hj
        · rw [handleConnectionClosed_cars s payload hlen]
          rcases hc : s.cars (ccSlot payload) with _ | c
          · exact hj
          · simp only [setCar]
            split_ifs with he
            · simp
            · exact hj
      · rw [handleLapCompleted_cars]; exact hj
      · by_cases hlen : payload.length < 1
        · unfold handleCarInfo; rw [if_pos hlen]; exact hj
        · rw [handleCarInfo_cars s payload hlen]
          simp only [setCar]
          split_ifs with he
          · simp
          · exact hj
      · rw [handleSessionInfo_cars]; exact hj
      · rw [handleClientEvent_cars]; exact hj
      · rw [handleChat_cars]; exact hj
      · exact hj
  · intro s payload h
    have hx : ¬ payload.length < 1 := by omega
    constructor
    · show (handleNewConnection s payload).cars (ncSlot payload) ≠ none
      rw [handleNewConnection_cars s payload hx]
      simp [setCar]
    · show (handleCarInfo s payload).cars (ciSlot payload) ≠ none
      rw [handleCarInfo_cars s payload hx]
      simp [setCar]
  · intro s payload j hj
    refine ⟨?_, ?_, ?_, ?_⟩
    · show (handleConnectionClosed s payload).cars j = none
      by_cases hlen : payload.length < 1
      · unfold handleConnectionClosed; rw [if_pos hlen]; exact hj
      · rw [handleConnectionClosed_cars s payload hlen]
        rcases hc : s.cars (ccSlot payload) with _ | c
        · exact hj
        · simp only [setCar]
          split_ifs with he
          · rw [he] at hj; rw [hj] at hc; cases hc
          · exact hj
    · show (handleLapCompleted s payload).cars j = none
      rw [handleLapCompleted_cars]; exact hj
    · show (handleClientEvent s payload).cars j = none
      rw [handleClientEvent_cars]; exact hj
    · show (handleChat s payload).cars j = none
      rw [handleChat_cars]; exact hj

/-- C9 witness: the record created for slot 3 by the Alice new-connection
frame survives a connection-closed frame for slot 3. -/
theorem roster_creation_and_persistence_witness :
    (handleMessage initState [4, 5, 65, 108, 105, 99, 101, 2, 103, 49, 3, 5, 0]).cars 3 ≠ none
    ∧ (handleMessage
        (handleMessage initState [4, 5, 65, 108, 105, 99, 101, 2, 103, 49, 3, 5, 0])
        [5, 0, 3]).cars 3 ≠ none :=
  ⟨by decide,
   roster_creation_and_persistence.1
     (handleMessage initState [4, 5, 65, 108, 105, 99, 101, 2, 103, 49, 3, 5, 0])
     [5, 0, 3] 3 (by decide)⟩

/-- C10: readString returns the empty string when the length byte is missing,
when the declared length is zero, and when the single buffer read fails
because the reader is exhausted; otherwise it returns the read bytes with
trailing zero bytes stripped, and in particular when the declared length
exceeds the remaining buffer it returns the remaining bytes (the zero filled
tail of the allocated buffer stripped) instead of reporting truncation. -/
theorem readString_never_fails :
    readString [] = ([], [])
    ∧ (∀ (len0 : Nat) (rest : Bytes), len0 % 256 = 0 →
        readString (len0 :: rest) = ([], rest))
    ∧ (∀ len0 : Nat, len0 % 256 ≠ 0 → readString [len0] = ([], []))
    ∧ (∀ (len0 : Nat) (rest : Bytes), len0 % 256 ≠ 0 → rest ≠ [] →
        readString (len0 :: rest)
          = (trimTrailingZeros (rest.take (len0 % 256)), rest.drop (len0 % 256)))
    ∧ (∀ (len0 : Nat) (rest : Bytes), len0 % 256 ≠ 0 → rest ≠ [] →
        rest.length ≤ len0 % 256 →
        (readString (len0 :: rest)).1 = trimTrailingZeros rest) := by
  refine ⟨rfl, fun len0 rest h => ?_, fun len0 h => ?_,
    fun len0 rest h hr => ?_, fun len0 rest h hr hlen => ?_⟩
  · simp [readString, h]
  · simp [readString, h]
  · simp [readString, h, hr]
  · simp [readString, h, hr, List.take_of_length_le hlen]

/-- C10 witness: a declared length of five over a three byte remainder yields
those three bytes rather than a failure. -/
theorem readString_never_fails_witness :
    (5 : Nat) % 256 ≠ 0
    ∧ ([65, 108, 105] : Bytes) ≠ []
    ∧ ([65, 108, 105] : Bytes).length ≤ 5 % 256
    ∧ (readString (5 :: [65, 108, 105])).1 = trimTrailingZeros [65, 108, 105] :=
  ⟨by decide, by decide, by decide,
   readString_never_fails.2.2.2.2 5 [65, 108, 105] (by decide) (by decide) (by decide)⟩

end ACServer
